import Mathlib

/-!
# Verification of the aws-ofi-nccl RDMA transport core (`src/nccl_ofi_rdma.c`)

This development shallowly embeds the parts of `nccl_ofi_rdma.c` referenced by
the specification claims and proves (or refutes) each claim against the
embedding.

Modelling conventions:
* machine integers are `Nat` (unsigned C types) and return codes are `Int`
  (C `int`/`ssize_t` return values), with bit operations written exactly as in
  the C macros (`|||`, `&&&`, `<<<`, `>>>` on `Nat`);
* `pthread_mutex_lock`/`unlock` are modelled as always succeeding (the
  embedding is single-threaded; the C lock-failure branches merely convert a
  nonzero `pthread` return into an errno and are dead in a correct pthread
  implementation);
* external collaborators that the spec declares out of scope (deque, freelist,
  id pool) are modelled by pure data: the pending-request deque is a `List`,
  and fallible collaborator calls are parametrised by their observed outcome;
* fabric (libfabric) post results are arbitrary `Int` values supplied by an
  environment record, so theorems quantify over every possible fabric
  behaviour.
-/

namespace NcclOfiRdma

/-! ## Error codes

Numeric values of the ISO C / libfabric error codes used by the file.
`FI_EAGAIN` equals `EAGAIN` (libfabric error codes coincide with errno values
below `FI_ERRNO_OFFSET`). -/

def EAGAIN : Int := 11
def ENOMEM : Int := 12
def EINVAL : Int := 22
def ENOSPC : Int := 28
def EIO : Int := 5
def ENOTSUP : Int := 95
def FI_EAGAIN : Int := EAGAIN

/-! ## C1: immediate-data encoding (`nccl_ofi_rdma.c` lines 40-110)

The macros are translated bit-for-bit; all operands are `uint64_t` in C and
are modelled as `Nat` (the C values never exceed 2^64 on the inputs in
question, and the claim includes the 32-bit bound, so `Nat` and `uint64_t`
arithmetic agree). -/

def NUM_COMM_ID_BITS : Nat := 18
def NUM_MSG_SEQ_NUM_BITS : Nat := 10
def NUM_NUM_SEG_BITS : Nat := 4

/-- `#define COMM_ID_MASK (((uint64_t)1 << NUM_COMM_ID_BITS) - 1)` -/
def COMM_ID_MASK : Nat := (1 <<< NUM_COMM_ID_BITS) - 1

/-- `#define MSG_SEQ_NUM_MASK (((uint64_t)1 << NUM_MSG_SEQ_NUM_BITS) - 1)` -/
def MSG_SEQ_NUM_MASK : Nat := (1 <<< NUM_MSG_SEQ_NUM_BITS) - 1

/-- `#define MSG_NUM_SEG_MASK (((uint64_t)1 << NUM_NUM_SEG_BITS) - 1)` -/
def MSG_NUM_SEG_MASK : Nat := (1 <<< NUM_NUM_SEG_BITS) - 1

/-- `GET_COMM_ID_FROM_IMM(data) (((data) >> NUM_MSG_SEQ_NUM_BITS) & COMM_ID_MASK)` -/
def GET_COMM_ID_FROM_IMM (data : Nat) : Nat :=
  (data >>> NUM_MSG_SEQ_NUM_BITS) &&& COMM_ID_MASK

/-- `GET_SEQ_NUM_FROM_IMM(data) ((data) & MSG_SEQ_NUM_MASK)` -/
def GET_SEQ_NUM_FROM_IMM (data : Nat) : Nat :=
  data &&& MSG_SEQ_NUM_MASK

/-- `GET_NUM_SEG_FROM_IMM(data) (((data) >> (NUM_MSG_SEQ_NUM_BITS + NUM_COMM_ID_BITS)) & MSG_NUM_SEG_MASK)` -/
def GET_NUM_SEG_FROM_IMM (data : Nat) : Nat :=
  (data >>> (NUM_MSG_SEQ_NUM_BITS + NUM_COMM_ID_BITS)) &&& MSG_NUM_SEG_MASK

/-- `GET_RDMA_WRITE_IMM_DATA(comm_id, seq, nseg)
     ((seq) | ((comm_id) << NUM_MSG_SEQ_NUM_BITS) |
      ((nseg) << (NUM_MSG_SEQ_NUM_BITS + NUM_COMM_ID_BITS)))` -/
def GET_RDMA_WRITE_IMM_DATA (comm_id seq nseg : Nat) : Nat :=
  seq ||| (comm_id <<< NUM_MSG_SEQ_NUM_BITS) |||
    (nseg <<< (NUM_MSG_SEQ_NUM_BITS + NUM_COMM_ID_BITS))

/-- On in-range fields the immediate value is the sum of the three
disjointly-placed bit fields. -/
lemma imm_data_eq_add (comm_id seq nseg : Nat)
    (hc : comm_id < 2 ^ 18) (hs : seq < 2 ^ 10) (_hn : nseg < 2 ^ 4) :
    GET_RDMA_WRITE_IMM_DATA comm_id seq nseg =
      seq + comm_id * 2 ^ 10 + nseg * 2 ^ 28 := by
  unfold GET_RDMA_WRITE_IMM_DATA NUM_MSG_SEQ_NUM_BITS NUM_COMM_ID_BITS
  rw [Nat.shiftLeft_eq, Nat.shiftLeft_eq]
  have h1 : seq ||| comm_id * 2 ^ 10 = seq + comm_id * 2 ^ 10 := by
    rw [Nat.lor_comm, Nat.mul_comm comm_id (2 ^ 10),
      ← Nat.mul_add_lt_is_or hs comm_id]
    ring
  rw [h1]
  have hlt : seq + comm_id * 2 ^ 10 < 2 ^ 28 := by
    have : comm_id * 2 ^ 10 ≤ (2 ^ 18 - 1) * 2 ^ 10 :=
      Nat.mul_le_mul_right _ (by omega)
    omega
  rw [Nat.lor_comm, Nat.mul_comm nseg (2 ^ 28),
    ← Nat.mul_add_lt_is_or hlt nseg]
  ring

/-- C1: for every `comm_id ∈ [0, 2^18)`, `seq ∈ [0, 2^10)`, `nseg ∈ [0, 2^4)`,
extracting the communicator id, the sequence number and the segment count from
`GET_RDMA_WRITE_IMM_DATA comm_id seq nseg` returns exactly
`(comm_id, seq, nseg)`, and the immediate value fits in 32 bits. -/
theorem imm_data_round_trip (comm_id seq nseg : Nat)
    (hc : comm_id < 2 ^ 18) (hs : seq < 2 ^ 10) (hn : nseg < 2 ^ 4) :
    GET_COMM_ID_FROM_IMM (GET_RDMA_WRITE_IMM_DATA comm_id seq nseg) = comm_id ∧
    GET_SEQ_NUM_FROM_IMM (GET_RDMA_WRITE_IMM_DATA comm_id seq nseg) = seq ∧
    GET_NUM_SEG_FROM_IMM (GET_RDMA_WRITE_IMM_DATA comm_id seq nseg) = nseg ∧
    GET_RDMA_WRITE_IMM_DATA comm_id seq nseg < 2 ^ 32 := by
  rw [imm_data_eq_add comm_id seq nseg hc hs hn]
  unfold GET_COMM_ID_FROM_IMM GET_SEQ_NUM_FROM_IMM GET_NUM_SEG_FROM_IMM
    COMM_ID_MASK MSG_SEQ_NUM_MASK MSG_NUM_SEG_MASK
    NUM_MSG_SEQ_NUM_BITS NUM_COMM_ID_BITS NUM_NUM_SEG_BITS
  rw [Nat.shiftRight_eq_div_pow, Nat.shiftRight_eq_div_pow]
  have e18 : (1 <<< 18 : Nat) - 1 = 2 ^ 18 - 1 := by decide
  have e10 : (1 <<< 10 : Nat) - 1 = 2 ^ 10 - 1 := by decide
  have e4 : (1 <<< 4 : Nat) - 1 = 2 ^ 4 - 1 := by decide
  rw [e18, e10, e4, Nat.and_pow_two_sub_one_eq_mod, Nat.and_pow_two_sub_one_eq_mod,
    Nat.and_pow_two_sub_one_eq_mod]
  refine ⟨?_, ?_, ?_, ?_⟩ <;>
    · simp only [show (2:Nat)^10 = 1024 from rfl, show (2:Nat)^18 = 262144 from rfl,
        show (2:Nat)^28 = 268435456 from rfl, show (2:Nat)^4 = 16 from rfl,
        show (2:Nat)^32 = 4294967296 from rfl] at *
      omega

/-- Witness for C1 at concrete inputs. -/
theorem imm_data_round_trip_witness :
    (123456 : Nat) < 2 ^ 18 ∧ (789 : Nat) < 2 ^ 10 ∧ (7 : Nat) < 2 ^ 4 ∧
    (GET_COMM_ID_FROM_IMM (GET_RDMA_WRITE_IMM_DATA 123456 789 7) = 123456 ∧
     GET_SEQ_NUM_FROM_IMM (GET_RDMA_WRITE_IMM_DATA 123456 789 7) = 789 ∧
     GET_NUM_SEG_FROM_IMM (GET_RDMA_WRITE_IMM_DATA 123456 789 7) = 7 ∧
     GET_RDMA_WRITE_IMM_DATA 123456 789 7 < 2 ^ 32) :=
  ⟨by decide, by decide, by decide,
   imm_data_round_trip 123456 789 7 (by decide) (by decide) (by decide)⟩

/-! ## Request model

`nccl_net_ofi_rdma_req_state_t` and `nccl_net_ofi_rdma_req_type_t`, and the
per-request fields used by the claims (`state`, `size`, `ncompls`). -/

inductive ReqState where
  | created
  | pending
  | completed
  | error
deriving DecidableEq, Repr

inductive ReqType where
  | sendConn
  | sendConnResp
  | recvConn
  | recvConnResp
  | send
  | recv
  | sendCtrl
  | recvSegms
  | bounce
  | flush
  | eagerCopy
deriving DecidableEq, Repr

structure Req where
  state : ReqState
  size : Nat
  ncompls : Nat
deriving DecidableEq, Repr

/-! ## C10: `inc_req_completion` (lines 653-683) and
`set_request_state_to_error` (lines 618-630)

`inc_req_completion` adds `size` to the accumulated size, increments the
completion counter, and sets the state to `COMPLETED` only when the counter
reaches `total_ncompls` and the state does not already track an error.
The pthread lock/unlock around the update is modelled as always succeeding. -/

def inc_req_completion (req : Req) (size : Nat) (total_ncompls : Nat) : Req :=
  let size' := req.size + size
  let ncompls := req.ncompls + 1
  let state' :=
    if ncompls = total_ncompls ∧ req.state ≠ ReqState.error then
      ReqState.completed
    else
      req.state
  { state := state', size := size', ncompls := ncompls }

/-- `set_request_state_to_error` on the request itself (the parent-request
propagation for `SEND_CTRL`/`RECV_SEGMS` updates a different request and is
not needed for C10, which is about `inc_req_completion` on one request). -/
def set_request_state_to_error (req : Req) : Req :=
  { req with state := ReqState.error }

/-- C10: once a request's state is `ERROR`, `inc_req_completion` never turns
it into `COMPLETED`, even when the incremented completion count reaches
`total_num_compls`; the accumulated size and the completion counter still
advance. -/
theorem inc_req_completion_preserves_error (req : Req) (size total_ncompls : Nat)
    (herr : req.state = ReqState.error) :
    (inc_req_completion req size total_ncompls).state = ReqState.error ∧
    (inc_req_completion req size total_ncompls).state ≠ ReqState.completed ∧
    (inc_req_completion req size total_ncompls).size = req.size + size ∧
    (inc_req_completion req size total_ncompls).ncompls = req.ncompls + 1 := by
  simp [inc_req_completion, herr]

/-- Witness for C10: an errored request whose completion count reaches the
total (`ncompls + 1 = total_ncompls = 2`) stays in `ERROR`. -/
theorem inc_req_completion_preserves_error_witness :
    (Req.mk ReqState.error 5 1).state = ReqState.error ∧
    ((inc_req_completion (Req.mk ReqState.error 5 1) 3 2).state = ReqState.error ∧
     (inc_req_completion (Req.mk ReqState.error 5 1) 3 2).state ≠ ReqState.completed ∧
     (inc_req_completion (Req.mk ReqState.error 5 1) 3 2).size = 5 + 3 ∧
     (inc_req_completion (Req.mk ReqState.error 5 1) 3 2).ncompls = 1 + 1) :=
  ⟨rfl, inc_req_completion_preserves_error (Req.mk ReqState.error 5 1) 3 2 rfl⟩

/-! ## Pending-request queue and C7: `process_pending_reqs` (lines 1621-1670)

The deque (an external collaborator) is modelled as a `List`;
`nccl_ofi_deque_remove_front` pops the head, `nccl_ofi_deque_insert_front`
pushes at the head, `nccl_ofi_deque_insert_back` appends, and all deque
operations succeed.

A pending request is represented by an element of an arbitrary type `α`
together with its request type; the outcomes of `send_progress` and
`receive_progress(req, false)` are supplied by oracles, so the theorems hold
for every possible fabric behaviour. -/

structure PendingReq (α : Type) where
  elem : α
  ty : ReqType
deriving DecidableEq, Repr

/-- One dispatch step of `process_pending_reqs`: `SEND`/`BOUNCE` requests are
re-posted via `send_progress`, `EAGER_COPY`/`SEND_CTRL`/`FLUSH` via
`receive_progress(req, false)`; any other type yields `-EINVAL`. -/
def pending_post {α : Type} (sendProg recvProg : α → Int) (r : PendingReq α) : Int :=
  match r.ty with
  | ReqType.send => sendProg r.elem
  | ReqType.bounce => sendProg r.elem
  | ReqType.eagerCopy => recvProg r.elem
  | ReqType.sendCtrl => recvProg r.elem
  | ReqType.flush => recvProg r.elem
  | _ => -EINVAL

/-- `process_pending_reqs`: walk the deque front to back re-attempting each
post; the first `-FI_EAGAIN` reinserts the request at the front and stops; a
hard error stops without reinsertion; a successful post removes the request
permanently. Returns the function result and the final deque. -/
def process_pending_reqs {α : Type} (sendProg recvProg : α → Int) :
    List (PendingReq α) → Int × List (PendingReq α)
  | [] => (0, [])
  | r :: rest =>
    if pending_post sendProg recvProg r = 0 then
      process_pending_reqs sendProg recvProg rest
    else if pending_post sendProg recvProg r = -FI_EAGAIN then
      (0, r :: rest)
    else
      (pending_post sendProg recvProg r, rest)

/-- The number of leading queue entries whose re-post succeeds. -/
def leading_ok_count {α : Type} (sendProg recvProg : α → Int) :
    List (PendingReq α) → Nat
  | [] => 0
  | r :: rest =>
    if pending_post sendProg recvProg r = 0 then
      leading_ok_count sendProg recvProg rest + 1
    else
      0

/-- C7: `process_pending_reqs` removes requests one at a time from the front
and re-attempts each post.  With `k` the number of leading successful posts:
if the whole queue succeeds the queue drains to `[]` with result `0`; if the
first non-success is `-FI_EAGAIN`, that request is reinserted at the front
(the final queue is exactly `drop k`, which starts with the `EAGAIN`-ed
request) and the result is `0`; on a hard error the failing request is
dropped and the error is returned.  In every case the `k` successfully posted
requests are permanently removed. -/
theorem process_pending_reqs_spec {α : Type} (sendProg recvProg : α → Int)
    (l : List (PendingReq α)) :
    (leading_ok_count sendProg recvProg l = l.length →
      process_pending_reqs sendProg recvProg l = (0, [])) ∧
    (∀ r rest,
      l.drop (leading_ok_count sendProg recvProg l) = r :: rest →
      (pending_post sendProg recvProg r = -FI_EAGAIN →
        process_pending_reqs sendProg recvProg l = (0, r :: rest)) ∧
      (pending_post sendProg recvProg r ≠ -FI_EAGAIN →
        process_pending_reqs sendProg recvProg l =
          (pending_post sendProg recvProg r, rest))) := by
  induction l with
  | nil => exact ⟨fun _ => rfl, fun r rest h => absurd h (by simp)⟩
  | cons q qs ih =>
    by_cases hq : pending_post sendProg recvProg q = 0
    · have hk : leading_ok_count sendProg recvProg (q :: qs) =
          leading_ok_count sendProg recvProg qs + 1 := by
        simp [leading_ok_count, hq]
      refine ⟨fun hlen => ?_, fun r rest hdrop => ?_⟩
      · have : leading_ok_count sendProg recvProg qs = qs.length := by
          rw [hk] at hlen
          simpa using hlen
        simpa [process_pending_reqs, hq] using ih.1 this
      · rw [hk, List.drop_succ_cons] at hdrop
        have := ih.2 r rest hdrop
        exact ⟨fun heag => by simpa [process_pending_reqs, hq] using this.1 heag,
               fun hne => by simpa [process_pending_reqs, hq] using this.2 hne⟩
    · have hk : leading_ok_count sendProg recvProg (q :: qs) = 0 := by
        simp [leading_ok_count, hq]
      refine ⟨fun hlen => ?_, fun r rest hdrop => ?_⟩
      · rw [hk] at hlen
        exact absurd hlen.symm (by simp)
      · rw [hk, List.drop_zero] at hdrop
        obtain ⟨rfl, rfl⟩ : q = r ∧ qs = rest := by
          injection hdrop with h1 h2; exact ⟨h1, h2⟩
        constructor
        · intro heag
          simp only [process_pending_reqs]
          rw [if_neg hq, if_pos heag]
        · intro hne
          simp only [process_pending_reqs]
          rw [if_neg hq, if_neg hne]

/-- Witness for C7 (the hypothesis branch): a two-element queue whose head
re-posts with `-FI_EAGAIN` is left unchanged with result `0`. -/
theorem process_pending_reqs_spec_witness :
    List.drop (leading_ok_count (fun _ : Nat => -FI_EAGAIN) (fun _ => 0)
        [PendingReq.mk 7 ReqType.send, PendingReq.mk 8 ReqType.sendCtrl])
        [PendingReq.mk 7 ReqType.send, PendingReq.mk 8 ReqType.sendCtrl] =
      PendingReq.mk 7 ReqType.send :: [PendingReq.mk 8 ReqType.sendCtrl] ∧
    process_pending_reqs (fun _ : Nat => -FI_EAGAIN) (fun _ => 0)
        [PendingReq.mk 7 ReqType.send, PendingReq.mk 8 ReqType.sendCtrl] =
      (0, PendingReq.mk 7 ReqType.send :: [PendingReq.mk 8 ReqType.sendCtrl]) := by
  refine ⟨by decide, ?_⟩
  exact ((process_pending_reqs_spec (fun _ : Nat => -FI_EAGAIN) (fun _ => 0)
    [PendingReq.mk 7 ReqType.send, PendingReq.mk 8 ReqType.sendCtrl]).2
    (PendingReq.mk 7 ReqType.send) [PendingReq.mk 8 ReqType.sendCtrl]
    (by decide)).1 (by decide)

/-! ## C6: bounce-buffer pool (`post_bounce_buffs_on_rail` lines 2025-2070,
`handle_bounce_eagain` lines 1995-2023, `decrease_bounce_buff_cnt` lines
926-945, `check_post_bounce_buffers_rail` lines 879-889,
`check_post_bounce_req` lines 4389-4442, `repost_bounce_buff` lines 895-920)

A rail's bounce-buffer bookkeeping (`num_bounce_posted`,
`min_bounce_posted`, `max_bounce_posted`, all `size_t`).  The per-rail
`bounce_mutex` is modelled as always succeeding.  `alloc_bounce_req`
success and the `send_progress` outcome of the `i`-th post attempt are
supplied by oracles `allocOk` and `post`. -/

structure Rail where
  num_bounce_posted : Nat
  min_bounce_posted : Nat
  max_bounce_posted : Nat
deriving DecidableEq, Repr

/-- Loop body of `post_bounce_buffs_on_rail`, recursing on the remaining
iteration count `k` (the loop index is `i = needed - k`).  Returns
`(ret, subtract, attempts)` where `subtract` is the `num_buffs_failed`
rolled back by `handle_bounce_eagain` (the count that was promised at loop
entry but not posted; the `EAGAIN`-ed request itself goes to the pending
queue and stays counted) and `attempts` is the number of fabric posts
attempted. -/
def post_bounce_buffs_go (post : Nat → Int) (allocOk : Nat → Bool)
    (needed : Nat) : Nat → Int × Nat × Nat
  | 0 => (0, 0, 0)
  | k + 1 =>
    if allocOk (needed - (k + 1)) then
      if post (needed - (k + 1)) = -FI_EAGAIN then
        (0, k, 1)
      else if post (needed - (k + 1)) = 0 then
        let r := post_bounce_buffs_go post allocOk needed k
        (r.1, r.2.1, r.2.2 + 1)
      else
        (post (needed - (k + 1)), 0, 1)
    else
      (-ENOMEM, 0, 0)

/-- `post_bounce_buffs_on_rail`: take `buffers_needed = max - num`, set the
posted count to `max` up front, post the needed buffers, and on `EAGAIN`
roll back the buffers that were promised but not posted.  Returns the rail,
the function result, and the number of post attempts. -/
def post_bounce_buffs_on_rail (post : Nat → Int) (allocOk : Nat → Bool)
    (rail : Rail) : Rail × Int × Nat :=
  let buffers_needed := rail.max_bounce_posted - rail.num_bounce_posted
  let r := post_bounce_buffs_go post allocOk buffers_needed buffers_needed
  ({ rail with num_bounce_posted := rail.max_bounce_posted - r.2.1 },
   r.1, r.2.2)

/-- `check_post_bounce_buffers_rail`: refill only when the posted count has
dropped below the minimum. -/
def check_post_bounce_buffers_rail (post : Nat → Int) (allocOk : Nat → Bool)
    (rail : Rail) : Rail × Int × Nat :=
  if rail.num_bounce_posted < rail.min_bounce_posted then
    post_bounce_buffs_on_rail post allocOk rail
  else
    (rail, 0, 0)

/-- `decrease_bounce_buff_cnt`: decrement the posted count
(`assert(num_bounce_posted > 0)` in the source) and run the refill check. -/
def decrease_bounce_buff_cnt (post : Nat → Int) (allocOk : Nat → Bool)
    (rail : Rail) : Rail × Int × Nat :=
  check_post_bounce_buffers_rail post allocOk
    { rail with num_bounce_posted := rail.num_bounce_posted - 1 }

/-- `check_post_bounce_req` (repost a consumed bounce buffer): if below
`max`, re-count the buffer and re-post it (`repostRc` is the
`send_progress` outcome for this buffer; `-FI_EAGAIN` parks it on the
pending queue with the count kept, matching the source), then run the
refill check; at `max`, the request is freed instead. -/
def check_post_bounce_req (repostRc : Int) (post : Nat → Int)
    (allocOk : Nat → Bool) (rail : Rail) : Rail × Int × Nat :=
  if rail.num_bounce_posted < rail.max_bounce_posted then
    let rail' := { rail with num_bounce_posted := rail.num_bounce_posted + 1 }
    if repostRc = -FI_EAGAIN then
      (rail', 0, 1)
    else if repostRc = 0 then
      let r := check_post_bounce_buffers_rail post allocOk rail'
      (r.1, r.2.1, r.2.2 + 1)
    else
      (rail', repostRc, 1)
  else
    (rail, 0, 0)

lemma post_bounce_buffs_go_bounds (post : Nat → Int) (allocOk : Nat → Bool)
    (needed k : Nat) :
    (post_bounce_buffs_go post allocOk needed k).2.1 ≤ k ∧
    (post_bounce_buffs_go post allocOk needed k).2.2 ≤ k := by
  induction k with
  | zero => simp [post_bounce_buffs_go]
  | succ k ih =>
    simp only [post_bounce_buffs_go]
    by_cases ha : allocOk (needed - (k + 1))
    · rw [if_pos ha]
      by_cases he : post (needed - (k + 1)) = -FI_EAGAIN
      · rw [if_pos he]
        refine ⟨?_, ?_⟩ <;> (dsimp only; omega)
      · rw [if_neg he]
        by_cases hz : post (needed - (k + 1)) = 0
        · rw [if_pos hz]
          have h1 := ih.1
          have h2 := ih.2
          refine ⟨?_, ?_⟩ <;> (dsimp only; omega)
        · rw [if_neg hz]
          refine ⟨?_, ?_⟩ <;> (dsimp only; omega)
    · rw [if_neg ha]
      refine ⟨?_, ?_⟩ <;> (dsimp only; omega)

lemma post_bounce_buffs_go_all_ok (post : Nat → Int) (allocOk : Nat → Bool)
    (needed : Nat) (hok : ∀ i, allocOk i = true ∧ post i = 0) (k : Nat) :
    post_bounce_buffs_go post allocOk needed k = (0, 0, k) := by
  induction k with
  | zero => rfl
  | succ k ih =>
    have h1 := (hok (needed - (k + 1))).1
    have h2 := (hok (needed - (k + 1))).2
    simp only [post_bounce_buffs_go]
    rw [if_pos h1, if_neg (by rw [h2]; decide), if_pos h2, ih]

/-- C6: bounce-pool bookkeeping.  On a rail with `num ≤ max`:
the initial/refill post keeps `num ≤ max` and attempts at most
`max - num` posts (the `EAGAIN` rollback never drops the count below its
entry value); a consumption decrement (with `num > 0`, the source's
assertion) keeps `num ≤ max`, attempts at most `max - (num - 1)` posts,
triggers a refill exactly when the decremented count is below `min`, and
with a fully cooperative fabric refills to exactly `max`; a repost keeps
`num ≤ max`.  (`0 ≤ num` holds by the `Nat` model of `size_t`.) -/
theorem bounce_buff_invariant (post : Nat → Int) (allocOk : Nat → Bool)
    (rail : Rail) (hle : rail.num_bounce_posted ≤ rail.max_bounce_posted)
    (hpos : 0 < rail.num_bounce_posted) (repostRc : Int) :
    ((post_bounce_buffs_on_rail post allocOk rail).1.num_bounce_posted ≤
        rail.max_bounce_posted ∧
     rail.num_bounce_posted ≤
        (post_bounce_buffs_on_rail post allocOk rail).1.num_bounce_posted ∧
     (post_bounce_buffs_on_rail post allocOk rail).2.2 ≤
        rail.max_bounce_posted - rail.num_bounce_posted) ∧
    ((decrease_bounce_buff_cnt post allocOk rail).1.num_bounce_posted ≤
        rail.max_bounce_posted ∧
     (decrease_bounce_buff_cnt post allocOk rail).2.2 ≤
        rail.max_bounce_posted - (rail.num_bounce_posted - 1) ∧
     (rail.num_bounce_posted - 1 ≥ rail.min_bounce_posted →
        (decrease_bounce_buff_cnt post allocOk rail).1.num_bounce_posted =
          rail.num_bounce_posted - 1) ∧
     ((∀ i, allocOk i = true ∧ post i = 0) →
      rail.num_bounce_posted - 1 < rail.min_bounce_posted →
        (decrease_bounce_buff_cnt post allocOk rail).1.num_bounce_posted =
          rail.max_bounce_posted)) ∧
    (check_post_bounce_req repostRc post allocOk rail).1.num_bounce_posted ≤
        rail.max_bounce_posted := by
  have hgo := post_bounce_buffs_go_bounds post allocOk
    (rail.max_bounce_posted - rail.num_bounce_posted)
    (rail.max_bounce_posted - rail.num_bounce_posted)
  refine ⟨⟨?_, ?_, ?_⟩, ⟨?_, ?_, ?_, ?_⟩, ?_⟩
  · dsimp only [post_bounce_buffs_on_rail]
    omega
  · dsimp only [post_bounce_buffs_on_rail]
    omega
  · dsimp only [post_bounce_buffs_on_rail]
    omega
  · dsimp only [decrease_bounce_buff_cnt, check_post_bounce_buffers_rail]
    by_cases h : rail.num_bounce_posted - 1 < rail.min_bounce_posted
    · rw [if_pos h]
      have hgo' := post_bounce_buffs_go_bounds post allocOk
        (rail.max_bounce_posted - (rail.num_bounce_posted - 1))
        (rail.max_bounce_posted - (rail.num_bounce_posted - 1))
      dsimp only [post_bounce_buffs_on_rail]
      omega
    · rw [if_neg h]
      dsimp only
      omega
  · dsimp only [decrease_bounce_buff_cnt, check_post_bounce_buffers_rail]
    by_cases h : rail.num_bounce_posted - 1 < rail.min_bounce_posted
    · rw [if_pos h]
      have hgo' := post_bounce_buffs_go_bounds post allocOk
        (rail.max_bounce_posted - (rail.num_bounce_posted - 1))
        (rail.max_bounce_posted - (rail.num_bounce_posted - 1))
      dsimp only [post_bounce_buffs_on_rail]
      omega
    · rw [if_neg h]
      dsimp only
      omega
  · intro hmin
    dsimp only [decrease_bounce_buff_cnt, check_post_bounce_buffers_rail]
    rw [if_neg (by omega)]
  · intro hok hmin
    dsimp only [decrease_bounce_buff_cnt, check_post_bounce_buffers_rail]
    rw [if_pos (by omega)]
    dsimp only [post_bounce_buffs_on_rail]
    rw [post_bounce_buffs_go_all_ok post allocOk _ hok]
    dsimp only
    omega
  · dsimp only [check_post_bounce_req]
    by_cases h : rail.num_bounce_posted < rail.max_bounce_posted
    · rw [if_pos h]
      by_cases he : repostRc = -FI_EAGAIN
      · rw [if_pos he]
        dsimp only
        omega
      · rw [if_neg he]
        by_cases hz : repostRc = 0
        · rw [if_pos hz]
          dsimp only [check_post_bounce_buffers_rail]
          by_cases hm : rail.num_bounce_posted + 1 < rail.min_bounce_posted
          · rw [if_pos hm]
            have hgo' := post_bounce_buffs_go_bounds post allocOk
              (rail.max_bounce_posted - (rail.num_bounce_posted + 1))
              (rail.max_bounce_posted - (rail.num_bounce_posted + 1))
            dsimp only [post_bounce_buffs_on_rail]
            omega
          · rw [if_neg hm]
            dsimp only
            omega
        · rw [if_neg hz]
          dsimp only
          omega
    · rw [if_neg h]
      exact hle

/-- Witness for C6 at a concrete rail (`num = 2`, `min = 3`, `max = 6`) with
a cooperative fabric and a successful repost. -/
theorem bounce_buff_invariant_witness :
    ((Rail.mk 2 3 6).num_bounce_posted ≤ (Rail.mk 2 3 6).max_bounce_posted ∧
     0 < (Rail.mk 2 3 6).num_bounce_posted) ∧
    ((decrease_bounce_buff_cnt (fun _ => 0) (fun _ => true)
        (Rail.mk 2 3 6)).1.num_bounce_posted = 6) := by
  have h := bounce_buff_invariant (fun _ => 0) (fun _ => true)
    (Rail.mk 2 3 6) (by decide) (by decide) 0
  refine ⟨⟨by decide, by decide⟩, ?_⟩
  exact h.2.1.2.2.2 (fun i => ⟨rfl, rfl⟩) (by decide)

/-! ## Message-buffer outcomes

The message buffer (`nccl_ofi_msgbuff`) is an external collaborator (its
implementation is not part of the RDMA source file); the RDMA code observes
only the result/status/element-type triples of its operations, which are
modelled by the following enumerations (`nccl_ofi_msgbuff_result_t`,
`nccl_ofi_msgbuff_status_t`, `nccl_ofi_msgbuff_elemtype_t`). -/

inductive MsgbuffElemType where
  | buff
  | req
deriving DecidableEq, Repr

inductive MsgbuffStatus where
  | notStarted
  | inProgress
  | completed
deriving DecidableEq, Repr

/-- Observed outcome of `nccl_ofi_msgbuff_retrieve` as used by `send`/`recv`:
`SUCCESS` with the element type, `INVALID_IDX` with the out-status, or any
other result. -/
inductive MsgbuffRetrieveRes where
  | success (ty : MsgbuffElemType)
  | invalidIdx (stat : MsgbuffStatus)
  | other
deriving DecidableEq, Repr

/-- Observed outcome of `nccl_ofi_msgbuff_insert`. -/
inductive MsgbuffInsertRes where
  | success
  | invalidIdx (stat : MsgbuffStatus)
  | other
deriving DecidableEq, Repr

/-! ## Completion-queue progress engine (`ofi_process_cq_rail` lines
1672-1705, `ofi_process_cq` lines 1714-1735, `process_cq_if_pending` lines
2918-2933)

One `fi_cq_read` call on a rail either yields a batch of completions (each
dispatched to a handler whose result is an `Int`; `process_completions`
stops at the first nonzero result), reports `-FI_EAVAIL` (the error queue is
drained by `process_err_completion`, whose result is recorded), reports
`-FI_EAGAIN` (no completions: the drain loop stops), or fails outright
(mapped to `-EINVAL`).  The handler results and error-queue results are
supplied by the environment; the side effects of handlers on the pending
queue are not tracked (they only ever append requests, which does not
affect any return code proved about here). -/

inductive CqReadEvent where
  | comps (results : List Int)
  | errAvail (res : Int)
  | noComp
  | badRead
deriving DecidableEq, Repr

/-- `process_completions` (lines 1396-1496): handle each entry in the batch,
returning the first nonzero handler result. -/
def process_completions : List Int → Int
  | [] => 0
  | r :: rest => if r = 0 then process_completions rest else r

/-- `ofi_process_cq_rail`: drain one rail's CQ until `-FI_EAGAIN` or an
error-queue entry that is not yet available. -/
def ofi_process_cq_rail : List CqReadEvent → Int
  | [] => 0
  | CqReadEvent.comps results :: rest =>
    if process_completions results = 0 then ofi_process_cq_rail rest
    else process_completions results
  | CqReadEvent.errAvail res :: _ =>
    if res = 0 then 0 else res
  | CqReadEvent.noComp :: _ => 0
  | CqReadEvent.badRead :: _ => -EINVAL

/-- The rail loop of `ofi_process_cq`: process every rail, stopping at the
first rail error. -/
def ofi_process_cq_rails : List (List CqReadEvent) → Int
  | [] => 0
  | evs :: rest =>
    if ofi_process_cq_rail evs = 0 then ofi_process_cq_rails rest
    else ofi_process_cq_rail evs

/-- `ofi_process_cq`: process all rails, then walk the pending-request
queue.  Returns the function result and the remaining pending queue. -/
def ofi_process_cq {α : Type} (sendProg recvProg : α → Int)
    (rails : List (List CqReadEvent)) (pending : List (PendingReq α)) :
    Int × List (PendingReq α) :=
  if ofi_process_cq_rails rails = 0 then
    process_pending_reqs sendProg recvProg pending
  else
    (ofi_process_cq_rails rails, pending)

/-- `process_cq_if_pending`: if the pending queue is non-empty, process the
CQ; report `-EAGAIN` when the queue is still non-empty afterwards. -/
def process_cq_if_pending {α : Type} (sendProg recvProg : α → Int)
    (rails : List (List CqReadEvent)) (pending : List (PendingReq α)) :
    Int × List (PendingReq α) :=
  if pending.isEmpty then
    (0, pending)
  else
    let r := ofi_process_cq sendProg recvProg rails pending
    if r.1 ≠ 0 then
      r
    else if ¬ r.2.isEmpty then
      (-EAGAIN, r.2)
    else
      (0, r.2)

/-- A CQ event whose recorded results do not carry `-FI_EAGAIN`: completion
handlers absorb fabric `EAGAIN` into the pending queue (proved for the
handler fragments modelled in this file), and libfabric error-queue entries
carry real errors, never `FI_EAGAIN`. -/
def CqEventOk : CqReadEvent → Prop
  | CqReadEvent.comps results => ∀ r ∈ results, r ≠ -FI_EAGAIN
  | CqReadEvent.errAvail res => res ≠ -FI_EAGAIN
  | CqReadEvent.noComp => True
  | CqReadEvent.badRead => True

lemma process_completions_ne_eagain (results : List Int)
    (h : ∀ r ∈ results, r ≠ -FI_EAGAIN) :
    process_completions results ≠ -FI_EAGAIN := by
  induction results with
  | nil => simp [process_completions, FI_EAGAIN, EAGAIN]
  | cons r rest ih =>
    simp only [process_completions]
    by_cases hr : r = 0
    · rw [if_pos hr]
      exact ih fun x hx => h x (List.mem_cons_of_mem r hx)
    · rw [if_neg hr]
      exact h r (List.mem_cons_self r rest)

lemma ofi_process_cq_rail_ne_eagain (evs : List CqReadEvent)
    (h : ∀ ev ∈ evs, CqEventOk ev) :
    ofi_process_cq_rail evs ≠ -FI_EAGAIN := by
  induction evs with
  | nil => simp [ofi_process_cq_rail, FI_EAGAIN, EAGAIN]
  | cons ev rest ih =>
    match ev with
    | CqReadEvent.comps results =>
      simp only [ofi_process_cq_rail]
      by_cases hz : process_completions results = 0
      · rw [if_pos hz]
        exact ih fun x hx => h x (List.mem_cons_of_mem _ hx)
      · rw [if_neg hz]
        exact process_completions_ne_eagain results
          (h (CqReadEvent.comps results) (List.mem_cons_self _ _))
    | CqReadEvent.errAvail res =>
      simp only [ofi_process_cq_rail]
      by_cases hz : res = 0
      · rw [if_pos hz]
        simp [FI_EAGAIN, EAGAIN]
      · rw [if_neg hz]
        exact h (CqReadEvent.errAvail res) (List.mem_cons_self _ _)
    | CqReadEvent.noComp =>
      simp [ofi_process_cq_rail, FI_EAGAIN, EAGAIN]
    | CqReadEvent.badRead =>
      simp [ofi_process_cq_rail, FI_EAGAIN, EAGAIN, EINVAL]

lemma ofi_process_cq_rails_ne_eagain (rails : List (List CqReadEvent))
    (h : ∀ evs ∈ rails, ∀ ev ∈ evs, CqEventOk ev) :
    ofi_process_cq_rails rails ≠ -FI_EAGAIN := by
  induction rails with
  | nil => simp [ofi_process_cq_rails, FI_EAGAIN, EAGAIN]
  | cons evs rest ih =>
    simp only [ofi_process_cq_rails]
    by_cases hz : ofi_process_cq_rail evs = 0
    · rw [if_pos hz]
      exact ih fun x hx => h x (List.mem_cons_of_mem _ hx)
    · rw [if_neg hz]
      exact ofi_process_cq_rail_ne_eagain evs
        (h evs (List.mem_cons_self _ _))

/-- `process_pending_reqs` never reports `-FI_EAGAIN`: the first `EAGAIN`-ed
request is reinserted at the queue front and the function result is `0`. -/
lemma process_pending_reqs_ne_eagain {α : Type} (sendProg recvProg : α → Int)
    (l : List (PendingReq α)) :
    (process_pending_reqs sendProg recvProg l).1 ≠ -FI_EAGAIN := by
  induction l with
  | nil => simp [process_pending_reqs, FI_EAGAIN, EAGAIN]
  | cons r rest ih =>
    simp only [process_pending_reqs]
    by_cases hz : pending_post sendProg recvProg r = 0
    · rw [if_pos hz]
      exact ih
    · rw [if_neg hz]
      by_cases he : pending_post sendProg recvProg r = -FI_EAGAIN
      · rw [if_pos he]
        simp [FI_EAGAIN, EAGAIN]
      · rw [if_neg he]
        exact he

lemma ofi_process_cq_ne_eagain {α : Type} (sendProg recvProg : α → Int)
    (rails : List (List CqReadEvent)) (pending : List (PendingReq α))
    (h : ∀ evs ∈ rails, ∀ ev ∈ evs, CqEventOk ev) :
    (ofi_process_cq sendProg recvProg rails pending).1 ≠ -FI_EAGAIN := by
  simp only [ofi_process_cq]
  by_cases hz : ofi_process_cq_rails rails = 0
  · rw [if_pos hz]
    exact process_pending_reqs_ne_eagain sendProg recvProg pending
  · rw [if_neg hz]
    exact ofi_process_cq_rails_ne_eagain rails h

/-! ## `send` (lines 4448-4626) and `recv` (lines 2935-3084)

The models follow the source control flow branch by branch.  Everything the
call observes from collaborators is supplied by an environment record: the
fabric post outcomes, the CQ events, the message-buffer operation results,
and allocation success.  The result record captures what the caller and the
communicator observe: the return code, whether `*base_req` was set to a
request, whether an allocated request is still live (not freed back to the
freelist), the inflight count, whether this call appended the request to
the pending queue, and whether `next_msg_seq_num` advanced. -/

/-- Failure modes of `alloc_rdma_send_req` (lines 4018-4065): freelist
exhausted (`-ENOMEM`) or no schedule (`-EINVAL`). -/
inductive AllocFail where
  | enomem
  | einval
deriving DecidableEq, Repr

structure ApiResult where
  ret : Int
  reqOut : Bool
  reqLive : Bool
  inflightAfter : Nat
  enqueuedPending : Bool
  advancedSeq : Bool
deriving DecidableEq, Repr

/-- Result shape of the paths that hand no request back to the caller. -/
def noReq (ret : Int) (inflight : Nat) : ApiResult :=
  ⟨ret, false, false, inflight, false, false⟩

/-- `receive_progress` (lines 1576-1611): post the request; on `-FI_EAGAIN`
with `add_to_pending`, park it on the pending queue and succeed.  Returns
the function result and whether the request was enqueued. -/
def receive_progress_model (rc : Int) (add_to_pending : Bool) : Int × Bool :=
  if rc = -FI_EAGAIN ∧ add_to_pending then (0, true) else (rc, false)

/-- `insert_rdma_send_req_into_msgbuff` (lines 4067-4108): `replace` when a
CTRL already occupies the slot, `insert` otherwise; an `insert` that
observes `INVALID_IDX`/`INPROGRESS` frees the request and nulls `*ret_req`
(second component `true`). -/
def insert_rdma_send_req_into_msgbuff (have_ctrl replaceOk : Bool)
    (insertRes : MsgbuffInsertRes) : Int × Bool :=
  if have_ctrl then
    if replaceOk then (0, false) else (-EINVAL, false)
  else
    match insertRes with
    | MsgbuffInsertRes.success => (0, false)
    | MsgbuffInsertRes.invalidIdx MsgbuffStatus.inProgress => (0, true)
    | _ => (-EINVAL, false)

/-- `insert_rdma_recv_req_into_msgbuff` (lines 2870-2909): identical logic
with `eager` in place of `have_ctrl`. -/
def insert_rdma_recv_req_into_msgbuff (eager replaceOk : Bool)
    (insertRes : MsgbuffInsertRes) : Int × Bool :=
  if eager then
    if replaceOk then (0, false) else (-EINVAL, false)
  else
    match insertRes with
    | MsgbuffInsertRes.success => (0, false)
    | MsgbuffInsertRes.invalidIdx MsgbuffStatus.inProgress => (0, true)
    | _ => (-EINVAL, false)

structure SendEnv (α : Type) where
  num_inflight_reqs : Nat
  /-- `NCCL_OFI_MAX_SEND_REQUESTS` (the configured send maximum). -/
  maxSendReqs : Nat
  connected : Bool
  /-- CQ events of the `ofi_process_cq` drain in the not-yet-connected path. -/
  connCq : List (List CqReadEvent)
  /-- whether `s_comm->connected` is observed true after that drain. -/
  connectedAfter : Bool
  /-- CQ events of the `process_cq_if_pending` drain. -/
  rails : List (List CqReadEvent)
  pending : List (PendingReq α)
  sendProg : α → Int
  recvProg : α → Int
  retrieve : MsgbuffRetrieveRes
  size : Nat
  eagerMaxSize : Nat
  allocOutcome : Option AllocFail
  /-- `check_post_bounce_req` collaborators for the `have_ctrl` path. -/
  bounceRepostRc : Int
  bouncePost : Nat → Int
  bounceAllocOk : Nat → Bool
  bounceRail : Rail
  replaceOk : Bool
  insertRes : MsgbuffInsertRes
  /-- `send_progress` outcome for this request. -/
  progressRc : Int

/-- `send` after the message-buffer retrieve classified the slot
(`have_ctrl` or fresh): classify eager, allocate, pull ctrl data and repost
the bounce buffer if `have_ctrl`, insert into the message buffer, bump the
inflight count, and post the write/eager send. -/
def send_core {α : Type} (e : SendEnv α) (have_ctrl : Bool) : ApiResult :=
  let eager := (have_ctrl = false ∧ e.size ≤ e.eagerMaxSize) ∨ e.size = 0
  match e.allocOutcome with
  | some AllocFail.enomem => noReq (-ENOMEM) e.num_inflight_reqs
  | some AllocFail.einval => noReq (-EINVAL) e.num_inflight_reqs
  | none =>
    let cb := (check_post_bounce_req e.bounceRepostRc e.bouncePost
      e.bounceAllocOk e.bounceRail).2.1
    if have_ctrl ∧ cb ≠ 0 then
      noReq cb e.num_inflight_reqs
    else
      let ins := insert_rdma_send_req_into_msgbuff have_ctrl e.replaceOk
        e.insertRes
      if ins.1 ≠ 0 ∨ ins.2 then
        noReq ins.1 e.num_inflight_reqs
      else if have_ctrl ∨ eager then
        if e.progressRc = -FI_EAGAIN then
          ⟨0, true, true, e.num_inflight_reqs + 1, true, true⟩
        else if e.progressRc = 0 then
          ⟨0, true, true, e.num_inflight_reqs + 1, false, true⟩
        else
          ⟨-ENOTSUP, false, false, e.num_inflight_reqs + 1, false, false⟩
      else
        ⟨0, true, true, e.num_inflight_reqs + 1, false, true⟩

/-- `send` after the connection check: run `process_cq_if_pending`
(backpressure returns a null request with success), then classify the
message-buffer slot for the next sequence number. -/
def send_after_conn {α : Type} (e : SendEnv α)
    (pending : List (PendingReq α)) : ApiResult :=
  let pcp := process_cq_if_pending e.sendProg e.recvProg e.rails pending
  if pcp.1 = -EAGAIN then
    noReq 0 e.num_inflight_reqs
  else if pcp.1 ≠ 0 then
    noReq pcp.1 e.num_inflight_reqs
  else
    match e.retrieve with
    | MsgbuffRetrieveRes.success MsgbuffElemType.buff => send_core e true
    | MsgbuffRetrieveRes.success MsgbuffElemType.req =>
      noReq (-EINVAL) e.num_inflight_reqs
    | MsgbuffRetrieveRes.invalidIdx MsgbuffStatus.notStarted =>
      send_core e false
    | _ => noReq (-EINVAL) e.num_inflight_reqs

/-- `send` (lines 4448-4626). -/
def sendModel {α : Type} (e : SendEnv α) : ApiResult :=
  if e.num_inflight_reqs = e.maxSendReqs then
    noReq (-EINVAL) e.num_inflight_reqs
  else if e.connected then
    send_after_conn e e.pending
  else
    let cq1 := ofi_process_cq e.sendProg e.recvProg e.connCq e.pending
    if cq1.1 ≠ 0 then
      noReq cq1.1 e.num_inflight_reqs
    else if e.connectedAfter = false then
      noReq 0 e.num_inflight_reqs
    else
      send_after_conn e cq1.2

structure RecvEnv (α : Type) where
  num_inflight_reqs : Nat
  /-- `NCCL_OFI_MAX_REQUESTS` (the configured receive maximum). -/
  maxReqs : Nat
  rails : List (List CqReadEvent)
  pending : List (PendingReq α)
  sendProg : α → Int
  recvProg : α → Int
  retrieve : MsgbuffRetrieveRes
  /-- `allocate_rdma_recv_req` success (failure returns `-EINVAL`). -/
  allocOk : Bool
  /-- `recv_len` of the eager bounce buffer occupying the slot. -/
  bounceRecvLen : Nat
  bounceRepostRc : Int
  bouncePost : Nat → Int
  bounceAllocOk : Nat → Bool
  bounceRail : Rail
  /-- `alloc_eager_copy_req` success (failure returns `-ENOMEM`). -/
  allocEagerCopyOk : Bool
  replaceOk : Bool
  insertRes : MsgbuffInsertRes
  /-- `post_rdma_ctrl` outcome (posted through `receive_progress`). -/
  ctrlRc : Int
  /-- `post_eager_copy` outcome (posted through `receive_progress`). -/
  eagerCopyRc : Int

/-- `recv` after the message-buffer retrieve classified the slot. -/
def recv_core {α : Type} (e : RecvEnv α) (eager : Bool) : ApiResult :=
  if e.allocOk = false then
    noReq (-EINVAL) e.num_inflight_reqs
  else
    let cb := (check_post_bounce_req e.bounceRepostRc e.bouncePost
      e.bounceAllocOk e.bounceRail).2.1
    if eager ∧ e.bounceRecvLen = 0 ∧ cb ≠ 0 then
      -- `return ret` at line 3022: the request is not freed on this path.
      ⟨cb, false, true, e.num_inflight_reqs, false, false⟩
    else if eager ∧ e.bounceRecvLen ≠ 0 ∧ e.allocEagerCopyOk = false then
      noReq (-ENOMEM) e.num_inflight_reqs
    else
      let ins := insert_rdma_recv_req_into_msgbuff eager e.replaceOk
        e.insertRes
      if ins.1 ≠ 0 then
        noReq ins.1 e.num_inflight_reqs
      else if ins.2 then
        -- `req == NULL` after the insert: `ret = -ENOMEM; goto free_req`.
        noReq (-ENOMEM) e.num_inflight_reqs
      else
        let rp := receive_progress_model e.ctrlRc true
        if rp.1 ≠ 0 then
          ⟨rp.1, false, false, e.num_inflight_reqs + 1, false, false⟩
        else if eager ∧ e.bounceRecvLen ≠ 0 then
          let rp2 := receive_progress_model e.eagerCopyRc true
          if rp2.1 ≠ 0 then
            ⟨rp2.1, false, false, e.num_inflight_reqs + 1, false, false⟩
          else
            ⟨0, true, true, e.num_inflight_reqs + 1, rp.2 || rp2.2, true⟩
        else
          ⟨0, true, true, e.num_inflight_reqs + 1, rp.2, true⟩

/-- `recv` (lines 2935-3084). -/
def recvModel {α : Type} (e : RecvEnv α) : ApiResult :=
  if e.num_inflight_reqs = e.maxReqs then
    noReq (-ENOSPC) e.num_inflight_reqs
  else
    let pcp := process_cq_if_pending e.sendProg e.recvProg e.rails e.pending
    if pcp.1 = -EAGAIN then
      noReq 0 e.num_inflight_reqs
    else if pcp.1 ≠ 0 then
      noReq pcp.1 e.num_inflight_reqs
    else
      match e.retrieve with
      | MsgbuffRetrieveRes.success MsgbuffElemType.req =>
        noReq (-EINVAL) e.num_inflight_reqs
      | MsgbuffRetrieveRes.success MsgbuffElemType.buff => recv_core e true
      | MsgbuffRetrieveRes.invalidIdx MsgbuffStatus.notStarted =>
        recv_core e false
      | _ => noReq (-EINVAL) e.num_inflight_reqs

/-! ## C3: inflight-request cap -/

/-- Modelled from the spec: the resource-exhaustion error class ("freelist
empty, id pool empty, over the inflight limit; reported synchronously",
distinct from the invalid-argument class), as the errno values the source
itself uses for these conditions: `-ENOMEM` for freelist/id-pool exhaustion
and `-ENOSPC` for the receive-side inflight cap. -/
def spec_resource_exhaustion_err (r : Int) : Prop :=
  r = -ENOSPC ∨ r = -ENOMEM

/-- A default send environment: connected communicator, idle fabric, empty
pending queue, fresh message-buffer slot. -/
def baseSendEnv : SendEnv Nat :=
  { num_inflight_reqs := 0
    maxSendReqs := 16
    connected := true
    connCq := []
    connectedAfter := true
    rails := []
    pending := []
    sendProg := fun _ => 0
    recvProg := fun _ => 0
    retrieve := MsgbuffRetrieveRes.invalidIdx MsgbuffStatus.notStarted
    size := 8
    eagerMaxSize := 64
    allocOutcome := none
    bounceRepostRc := 0
    bouncePost := fun _ => 0
    bounceAllocOk := fun _ => true
    bounceRail := Rail.mk 4 2 8
    replaceOk := true
    insertRes := MsgbuffInsertRes.success
    progressRc := 0 }

/-- A default receive environment, analogous to `baseSendEnv`. -/
def baseRecvEnv : RecvEnv Nat :=
  { num_inflight_reqs := 0
    maxReqs := 16
    rails := []
    pending := []
    sendProg := fun _ => 0
    recvProg := fun _ => 0
    retrieve := MsgbuffRetrieveRes.invalidIdx MsgbuffStatus.notStarted
    allocOk := true
    bounceRecvLen := 8
    bounceRepostRc := 0
    bouncePost := fun _ => 0
    bounceAllocOk := fun _ => true
    bounceRail := Rail.mk 4 2 8
    allocEagerCopyOk := true
    replaceOk := true
    insertRes := MsgbuffInsertRes.success
    ctrlRc := 0
    eagerCopyRc := 0 }

/-- C3 counterexample: at the inflight cap, `send` rejects with `-EINVAL`,
which is not in the resource-exhaustion error class — the claim that both
`send` and `recv` reject with the resource-exhaustion class fails on
`send`. -/
theorem send_inflight_cap_einval :
    (sendModel { baseSendEnv with num_inflight_reqs := 16 }).ret = -EINVAL ∧
    ¬ spec_resource_exhaustion_err
      (sendModel { baseSendEnv with num_inflight_reqs := 16 }).ret := by
  constructor
  · decide
  · intro h
    rcases h with h | h <;> revert h <;> decide

/-- C3 (amended): a `send` at `NCCL_OFI_MAX_SEND_REQUESTS` inflight requests
is rejected synchronously with `-EINVAL`, a `recv` at
`NCCL_OFI_MAX_REQUESTS` inflight requests with `-ENOSPC` (the
resource-exhaustion error); in both cases no request is created and the
inflight count is unchanged. -/
theorem inflight_cap_reject {α : Type} (es : SendEnv α) (er : RecvEnv α)
    (hs : es.num_inflight_reqs = es.maxSendReqs)
    (hr : er.num_inflight_reqs = er.maxReqs) :
    sendModel es = noReq (-EINVAL) es.num_inflight_reqs ∧
    recvModel er = noReq (-ENOSPC) er.num_inflight_reqs ∧
    spec_resource_exhaustion_err (-ENOSPC) ∧
    ¬ spec_resource_exhaustion_err (-EINVAL) := by
  refine ⟨?_, ?_, Or.inl rfl, ?_⟩
  · simp [sendModel, hs]
  · simp [recvModel, hr]
  · intro h
    rcases h with h | h <;> revert h <;> decide

/-- Witness for C3 (amended) at full concrete environments. -/
theorem inflight_cap_reject_witness :
    ({ baseSendEnv with num_inflight_reqs := 16 } : SendEnv Nat).num_inflight_reqs =
      ({ baseSendEnv with num_inflight_reqs := 16 } : SendEnv Nat).maxSendReqs ∧
    (sendModel { baseSendEnv with num_inflight_reqs := 16 } = noReq (-EINVAL) 16 ∧
     recvModel { baseRecvEnv with num_inflight_reqs := 16 } = noReq (-ENOSPC) 16 ∧
     spec_resource_exhaustion_err (-ENOSPC) ∧
     ¬ spec_resource_exhaustion_err (-EINVAL)) :=
  ⟨rfl, inflight_cap_reject
    { baseSendEnv with num_inflight_reqs := 16 }
    { baseRecvEnv with num_inflight_reqs := 16 } rfl rfl⟩

/-! ## C4: the `INPROGRESS` insert race -/

/-- C4: in the race where the peer's message arrives between the initial
retrieve and the insert (`insert` observes `INVALID_IDX`/`INPROGRESS`), the
insert helper frees the request and nulls `*ret_req` in both directions,
and `send` then returns success with a null request as documented — but
`recv` converts the null request into `ret = -ENOMEM` (lines 3036-3038) and
returns that error to the caller, contradicting the in-source comment
"Return NULL and let NCCL call recv again". -/
theorem recv_insert_race_returns_enomem :
    insert_rdma_recv_req_into_msgbuff false true
      (MsgbuffInsertRes.invalidIdx MsgbuffStatus.inProgress) = (0, true) ∧
    sendModel { baseSendEnv with
      insertRes := MsgbuffInsertRes.invalidIdx MsgbuffStatus.inProgress } =
      noReq 0 0 ∧
    recvModel { baseRecvEnv with
      insertRes := MsgbuffInsertRes.invalidIdx MsgbuffStatus.inProgress } =
      noReq (-ENOMEM) 0 ∧
    (recvModel { baseRecvEnv with
      insertRes := MsgbuffInsertRes.invalidIdx MsgbuffStatus.inProgress }).ret
      ≠ 0 := by
  refine ⟨rfl, by decide, by decide, by decide⟩

/-! ## `test` (lines 2238-2320) and C8

`test` asserts the request type is `SEND`, `RECV` or `FLUSH`; drains the CQ
of the request's endpoint only when the request is not yet terminal; on
`COMPLETED` it reads the accumulated size, sets `done = 1`, marks the
message-buffer slot complete (except for `FLUSH`, which is not keyed),
and invokes the request's free callback; on `ERROR` it returns `-EINVAL`;
otherwise it leaves `done = 0`. -/

structure TestEnv (α : Type) where
  state : ReqState
  ty : ReqType
  size : Nat
  rails : List (List CqReadEvent)
  pending : List (PendingReq α)
  sendProg : α → Int
  recvProg : α → Int
  /-- request state observed after the CQ drain (the drain may complete it). -/
  stateAfter : ReqState
  /-- `nccl_ofi_msgbuff_complete` success. -/
  completeOk : Bool

structure TestResult where
  ret : Int
  done : Nat
  sizeOut : Option Nat
  freed : Bool
  msgbuffCompleted : Bool
deriving DecidableEq, Repr

/-- The terminal-state handling of `test` on the observed state `st`. -/
def test_terminal (e : TestEnv α) (st : ReqState) : TestResult :=
  if st = ReqState.completed then
    if e.ty ≠ ReqType.flush then
      if e.ty = ReqType.send ∨ e.ty = ReqType.recv then
        if e.completeOk then
          ⟨0, 1, some e.size, true, true⟩
        else
          ⟨-EINVAL, 1, some e.size, false, false⟩
      else
        ⟨-EINVAL, 1, some e.size, false, false⟩
    else
      ⟨0, 1, some e.size, true, false⟩
  else if st = ReqState.error then
    ⟨-EINVAL, 0, none, false, false⟩
  else
    ⟨0, 0, none, false, false⟩

/-- `test` (lines 2238-2320). -/
def testModel {α : Type} (e : TestEnv α) : TestResult :=
  if e.state ≠ ReqState.completed ∧ e.state ≠ ReqState.error then
    let cq := ofi_process_cq e.sendProg e.recvProg e.rails e.pending
    if cq.1 ≠ 0 then
      ⟨cq.1, 0, none, false, false⟩
    else
      test_terminal e e.stateAfter
  else
    test_terminal e e.state

/-- C8: on a `COMPLETED` request, `test` returns `done = 1` with the
accumulated size, marks the message-buffer slot complete for `SEND` and
`RECV` but not for `FLUSH`, and invokes the free callback (no CQ drain is
performed, so the result does not depend on the CQ environment); on an
`ERROR` request it returns an error (`-EINVAL`); on a non-terminal request
that remains non-terminal after a clean CQ drain it returns `done = 0`
with the request still live. -/
theorem test_spec {α : Type} (e : TestEnv α)
    (hok : e.completeOk = true) :
    (e.state = ReqState.completed →
      (e.ty = ReqType.send ∨ e.ty = ReqType.recv →
        testModel e = ⟨0, 1, some e.size, true, true⟩) ∧
      (e.ty = ReqType.flush →
        testModel e = ⟨0, 1, some e.size, true, false⟩)) ∧
    (e.state = ReqState.error →
      testModel e = ⟨-EINVAL, 0, none, false, false⟩) ∧
    (e.state ≠ ReqState.completed → e.state ≠ ReqState.error →
      (ofi_process_cq e.sendProg e.recvProg e.rails e.pending).1 = 0 →
      e.stateAfter ≠ ReqState.completed → e.stateAfter ≠ ReqState.error →
      testModel e = ⟨0, 0, none, false, false⟩) := by
  refine ⟨fun hc => ⟨fun hty => ?_, fun hty => ?_⟩, fun he => ?_, ?_⟩
  · have hnf : e.ty ≠ ReqType.flush := by
      rcases hty with h | h <;> rw [h] <;> decide
    simp [testModel, hc, test_terminal, hnf, hty, hok]
  · simp [testModel, hc, test_terminal, hty]
  · have hne : e.state ≠ ReqState.completed := by rw [he]; decide
    simp [testModel, he, hne, test_terminal]
  · intro h1 h2 hcq h3 h4
    simp [testModel, h1, h2, hcq, test_terminal, h3, h4]

/-- A completed 1 MiB `RECV` request handed to `test`, on an idle fabric. -/
def testEnvCompleted : TestEnv Nat :=
  { state := ReqState.completed
    ty := ReqType.recv
    size := 1048576
    rails := []
    pending := []
    sendProg := fun _ => 0
    recvProg := fun _ => 0
    stateAfter := ReqState.completed
    completeOk := true }

/-- Witness for C8: a completed 1 MiB `RECV` request. -/
theorem test_spec_witness :
    testEnvCompleted.completeOk = true ∧
    testModel testEnvCompleted = ⟨0, 1, some 1048576, true, true⟩ :=
  ⟨rfl, ((test_spec testEnvCompleted rfl).1 rfl).1 (Or.inr rfl)⟩

/-! ## C5: `EAGAIN` never reaches the caller

Fabric `EAGAIN` is absorbed: a post that returns `-FI_EAGAIN` parks the
request on the pending queue (`send` lines 4597-4604, `receive_progress`
lines 1593-1608, bounce reposts), `process_cq_if_pending`'s `-EAGAIN` is
converted to a success-with-null-request return (`send` lines 4493-4501,
`recv` lines 2961-2969), and `process_pending_reqs` reinserts instead of
reporting.  The lemmas below chase every return path of the models. -/

lemma post_bounce_buffs_go_ne_eagain (post : Nat → Int) (allocOk : Nat → Bool)
    (needed k : Nat) :
    (post_bounce_buffs_go post allocOk needed k).1 ≠ -FI_EAGAIN := by
  induction k with
  | zero => simp [post_bounce_buffs_go, FI_EAGAIN, EAGAIN]
  | succ k ih =>
    simp only [post_bounce_buffs_go]
    by_cases ha : allocOk (needed - (k + 1))
    · rw [if_pos ha]
      by_cases he : post (needed - (k + 1)) = -FI_EAGAIN
      · rw [if_pos he]
        simp [FI_EAGAIN, EAGAIN]
      · rw [if_neg he]
        by_cases hz : post (needed - (k + 1)) = 0
        · rw [if_pos hz]
          exact ih
        · rw [if_neg hz]
          exact he
    · rw [if_neg ha]
      simp [FI_EAGAIN, EAGAIN, ENOMEM]

lemma check_post_bounce_buffers_rail_ne_eagain (post : Nat → Int)
    (allocOk : Nat → Bool) (rail : Rail) :
    (check_post_bounce_buffers_rail post allocOk rail).2.1 ≠ -FI_EAGAIN := by
  dsimp only [check_post_bounce_buffers_rail]
  by_cases h : rail.num_bounce_posted < rail.min_bounce_posted
  · rw [if_pos h]
    exact post_bounce_buffs_go_ne_eagain post allocOk _ _
  · rw [if_neg h]
    simp [FI_EAGAIN, EAGAIN]

lemma check_post_bounce_req_ne_eagain (repostRc : Int) (post : Nat → Int)
    (allocOk : Nat → Bool) (rail : Rail) :
    (check_post_bounce_req repostRc post allocOk rail).2.1 ≠ -FI_EAGAIN := by
  dsimp only [check_post_bounce_req]
  by_cases h : rail.num_bounce_posted < rail.max_bounce_posted
  · rw [if_pos h]
    by_cases he : repostRc = -FI_EAGAIN
    · rw [if_pos he]
      simp [FI_EAGAIN, EAGAIN]
    · rw [if_neg he]
      by_cases hz : repostRc = 0
      · rw [if_pos hz]
        exact check_post_bounce_buffers_rail_ne_eagain post allocOk _
      · rw [if_neg hz]
        exact he
  · rw [if_neg h]
    simp [FI_EAGAIN, EAGAIN]

lemma receive_progress_model_ne_eagain (rc : Int) :
    (receive_progress_model rc true).1 ≠ -FI_EAGAIN := by
  dsimp only [receive_progress_model]
  by_cases h : rc = -FI_EAGAIN
  · rw [if_pos ⟨h, rfl⟩]
    simp [FI_EAGAIN, EAGAIN]
  · rw [if_neg (by simp [h])]
    exact h

lemma insert_send_ret_cases (have_ctrl replaceOk : Bool)
    (insertRes : MsgbuffInsertRes) :
    (insert_rdma_send_req_into_msgbuff have_ctrl replaceOk insertRes).1 = 0 ∨
    (insert_rdma_send_req_into_msgbuff have_ctrl replaceOk insertRes).1 =
      -EINVAL := by
  dsimp only [insert_rdma_send_req_into_msgbuff]
  cases have_ctrl <;> cases replaceOk <;> rcases insertRes with _ | stat | _ <;>
    first
    | exact Or.inl rfl
    | exact Or.inr rfl
    | rcases stat with _ | _ | _ <;>
        first
        | exact Or.inl rfl
        | exact Or.inr rfl

lemma insert_recv_ret_cases (eager replaceOk : Bool)
    (insertRes : MsgbuffInsertRes) :
    (insert_rdma_recv_req_into_msgbuff eager replaceOk insertRes).1 = 0 ∨
    (insert_rdma_recv_req_into_msgbuff eager replaceOk insertRes).1 =
      -EINVAL := by
  dsimp only [insert_rdma_recv_req_into_msgbuff]
  cases eager <;> cases replaceOk <;> rcases insertRes with _ | stat | _ <;>
    first
    | exact Or.inl rfl
    | exact Or.inr rfl
    | rcases stat with _ | _ | _ <;>
        first
        | exact Or.inl rfl
        | exact Or.inr rfl

lemma send_core_ne_eagain {α : Type} (e : SendEnv α) (have_ctrl : Bool) :
    (send_core e have_ctrl).ret ≠ -FI_EAGAIN := by
  dsimp only [send_core]
  cases halloc : e.allocOutcome with
  | some af =>
    cases af <;> simp [noReq, FI_EAGAIN, EAGAIN, ENOMEM, EINVAL]
  | none =>
    by_cases hcb : have_ctrl ∧
        (check_post_bounce_req e.bounceRepostRc e.bouncePost e.bounceAllocOk
          e.bounceRail).2.1 ≠ 0
    · rw [if_pos hcb]
      exact check_post_bounce_req_ne_eagain _ _ _ _
    · rw [if_neg hcb]
      by_cases hins : (insert_rdma_send_req_into_msgbuff have_ctrl e.replaceOk
          e.insertRes).1 ≠ 0 ∨
          (insert_rdma_send_req_into_msgbuff have_ctrl e.replaceOk
            e.insertRes).2
      · rw [if_pos hins]
        rcases insert_send_ret_cases have_ctrl e.replaceOk e.insertRes with
          h | h <;> rw [h] <;> simp [noReq, FI_EAGAIN, EAGAIN, EINVAL]
      · rw [if_neg hins]
        by_cases hpost : (have_ctrl : Prop) ∨
            ((have_ctrl = false ∧ e.size ≤ e.eagerMaxSize) ∨ e.size = 0)
        · rw [if_pos hpost]
          by_cases hrc : e.progressRc = -FI_EAGAIN
          · rw [if_pos hrc]
            simp [FI_EAGAIN, EAGAIN]
          · rw [if_neg hrc]
            by_cases hz : e.progressRc = 0
            · rw [if_pos hz]
              simp [FI_EAGAIN, EAGAIN]
            · rw [if_neg hz]
              simp [FI_EAGAIN, EAGAIN, ENOTSUP]
        · rw [if_neg hpost]
          simp [FI_EAGAIN, EAGAIN]

lemma send_after_conn_ne_eagain {α : Type} (e : SendEnv α)
    (pending : List (PendingReq α)) :
    (send_after_conn e pending).ret ≠ -FI_EAGAIN := by
  dsimp only [send_after_conn]
  by_cases hp : (process_cq_if_pending e.sendProg e.recvProg e.rails
      pending).1 = -EAGAIN
  · rw [if_pos hp]
    simp [noReq, FI_EAGAIN, EAGAIN]
  · rw [if_neg hp]
    by_cases hz : (process_cq_if_pending e.sendProg e.recvProg e.rails
        pending).1 ≠ 0
    · rw [if_pos hz]
      exact fun hc => hp hc
    · rw [if_neg hz]
      rcases e.retrieve with ty | stat | _
      · rcases ty with _ | _
        · exact send_core_ne_eagain e true
        · simp [noReq, FI_EAGAIN, EAGAIN, EINVAL]
      · rcases stat with _ | _ | _
        · exact send_core_ne_eagain e false
        · simp [noReq, FI_EAGAIN, EAGAIN, EINVAL]
        · simp [noReq, FI_EAGAIN, EAGAIN, EINVAL]
      · simp [noReq, FI_EAGAIN, EAGAIN, EINVAL]

lemma sendModel_ne_eagain {α : Type} (e : SendEnv α)
    (h1 : ∀ evs ∈ e.connCq, ∀ ev ∈ evs, CqEventOk ev) :
    (sendModel e).ret ≠ -FI_EAGAIN := by
  dsimp only [sendModel]
  by_cases hcap : e.num_inflight_reqs = e.maxSendReqs
  · rw [if_pos hcap]
    simp [noReq, FI_EAGAIN, EAGAIN, EINVAL]
  · rw [if_neg hcap]
    by_cases hconn : e.connected
    · rw [if_pos hconn]
      exact send_after_conn_ne_eagain e e.pending
    · rw [if_neg hconn]
      by_cases hcq : (ofi_process_cq e.sendProg e.recvProg e.connCq
          e.pending).1 ≠ 0
      · rw [if_pos hcq]
        exact ofi_process_cq_ne_eagain e.sendProg e.recvProg e.connCq
          e.pending h1
      · rw [if_neg hcq]
        by_cases hca : e.connectedAfter = false
        · rw [if_pos hca]
          simp [noReq, FI_EAGAIN, EAGAIN]
        · rw [if_neg hca]
          exact send_after_conn_ne_eagain e _

lemma recv_core_ne_eagain {α : Type} (e : RecvEnv α) (eager : Bool) :
    (recv_core e eager).ret ≠ -FI_EAGAIN := by
  dsimp only [recv_core]
  by_cases hal : e.allocOk = false
  · rw [if_pos hal]
    simp [noReq, FI_EAGAIN, EAGAIN, EINVAL]
  · rw [if_neg hal]
    by_cases hcb : eager ∧ e.bounceRecvLen = 0 ∧
        (check_post_bounce_req e.bounceRepostRc e.bouncePost e.bounceAllocOk
          e.bounceRail).2.1 ≠ 0
    · rw [if_pos hcb]
      exact check_post_bounce_req_ne_eagain _ _ _ _
    · rw [if_neg hcb]
      by_cases hec : eager ∧ e.bounceRecvLen ≠ 0 ∧ e.allocEagerCopyOk = false
      · rw [if_pos hec]
        simp [noReq, FI_EAGAIN, EAGAIN, ENOMEM]
      · rw [if_neg hec]
        by_cases hins : (insert_rdma_recv_req_into_msgbuff eager e.replaceOk
            e.insertRes).1 ≠ 0
        · rw [if_pos hins]
          rcases insert_recv_ret_cases eager e.replaceOk e.insertRes with
            h | h <;> rw [h] <;> simp [noReq, FI_EAGAIN, EAGAIN, EINVAL]
        · rw [if_neg hins]
          by_cases hnull : (insert_rdma_recv_req_into_msgbuff eager
              e.replaceOk e.insertRes).2
          · rw [if_pos hnull]
            simp [noReq, FI_EAGAIN, EAGAIN, ENOMEM]
          · rw [if_neg hnull]
            by_cases hrp : (receive_progress_model e.ctrlRc true).1 ≠ 0
            · rw [if_pos hrp]
              exact receive_progress_model_ne_eagain e.ctrlRc
            · rw [if_neg hrp]
              by_cases heg : eager ∧ e.bounceRecvLen ≠ 0
              · rw [if_pos heg]
                by_cases hrp2 : (receive_progress_model e.eagerCopyRc true).1
                    ≠ 0
                · rw [if_pos hrp2]
                  exact receive_progress_model_ne_eagain e.eagerCopyRc
                · rw [if_neg hrp2]
                  simp [FI_EAGAIN, EAGAIN]
              · rw [if_neg heg]
                simp [FI_EAGAIN, EAGAIN]

lemma recvModel_ne_eagain {α : Type} (e : RecvEnv α) :
    (recvModel e).ret ≠ -FI_EAGAIN := by
  dsimp only [recvModel]
  by_cases hcap : e.num_inflight_reqs = e.maxReqs
  · rw [if_pos hcap]
    simp [noReq, FI_EAGAIN, EAGAIN, ENOSPC]
  · rw [if_neg hcap]
    by_cases hp : (process_cq_if_pending e.sendProg e.recvProg e.rails
        e.pending).1 = -EAGAIN
    · rw [if_pos hp]
      simp [noReq, FI_EAGAIN, EAGAIN]
    · rw [if_neg hp]
      by_cases hz : (process_cq_if_pending e.sendProg e.recvProg e.rails
          e.pending).1 ≠ 0
      · rw [if_pos hz]
        exact fun hc => hp hc
      · rw [if_neg hz]
        rcases e.retrieve with ty | stat | _
        · rcases ty with _ | _
          · exact recv_core_ne_eagain e true
          · simp [noReq, FI_EAGAIN, EAGAIN, EINVAL]
        · rcases stat with _ | _ | _
          · exact recv_core_ne_eagain e false
          · simp [noReq, FI_EAGAIN, EAGAIN, EINVAL]
          · simp [noReq, FI_EAGAIN, EAGAIN, EINVAL]
        · simp [noReq, FI_EAGAIN, EAGAIN, EINVAL]

lemma test_terminal_ne_eagain {α : Type} (e : TestEnv α) (st : ReqState) :
    (test_terminal e st).ret ≠ -FI_EAGAIN := by
  dsimp only [test_terminal]
  by_cases hc : st = ReqState.completed
  · rw [if_pos hc]
    by_cases hf : e.ty ≠ ReqType.flush
    · rw [if_pos hf]
      by_cases hsr : e.ty = ReqType.send ∨ e.ty = ReqType.recv
      · rw [if_pos hsr]
        by_cases hok : e.completeOk
        · rw [if_pos hok]
          simp [FI_EAGAIN, EAGAIN]
        · rw [if_neg hok]
          simp [FI_EAGAIN, EAGAIN, EINVAL]
      · rw [if_neg hsr]
        simp [FI_EAGAIN, EAGAIN, EINVAL]
    · rw [if_neg hf]
      simp [FI_EAGAIN, EAGAIN]
  · rw [if_neg hc]
    by_cases he : st = ReqState.error
    · rw [if_pos he]
      simp [FI_EAGAIN, EAGAIN, EINVAL]
    · rw [if_neg he]
      simp [FI_EAGAIN, EAGAIN]

lemma testModel_ne_eagain {α : Type} (e : TestEnv α)
    (h : ∀ evs ∈ e.rails, ∀ ev ∈ evs, CqEventOk ev) :
    (testModel e).ret ≠ -FI_EAGAIN := by
  dsimp only [testModel]
  by_cases hterm : e.state ≠ ReqState.completed ∧ e.state ≠ ReqState.error
  · rw [if_pos hterm]
    by_cases hcq : (ofi_process_cq e.sendProg e.recvProg e.rails
        e.pending).1 ≠ 0
    · rw [if_pos hcq]
      exact ofi_process_cq_ne_eagain e.sendProg e.recvProg e.rails e.pending h
    · rw [if_neg hcq]
      exact test_terminal_ne_eagain e e.stateAfter
  · rw [if_neg hterm]
    exact test_terminal_ne_eagain e e.state

/-- C5: no call to `send`, `recv` or `test` returns `-FI_EAGAIN` to the
caller (under the sole assumption that the recorded completion-handler and
error-queue results are themselves not `-FI_EAGAIN`, which holds for the
handler fragments modelled in this file and for libfabric error entries);
a `send` whose write post returns `-FI_EAGAIN` after the request reached
the message buffer hands out the request with success and parks it on the
pending queue, as does a `recv` whose control-message post returns
`-FI_EAGAIN`; and a `send` whose `process_cq_if_pending` reports
backpressure returns success with a null request. -/
theorem eagain_never_reaches_caller {α : Type} (es : SendEnv α)
    (er : RecvEnv α) (et : TestEnv α)
    (h1 : ∀ evs ∈ es.connCq, ∀ ev ∈ evs, CqEventOk ev)
    (h4 : ∀ evs ∈ et.rails, ∀ ev ∈ evs, CqEventOk ev) :
    (sendModel es).ret ≠ -FI_EAGAIN ∧
    (recvModel er).ret ≠ -FI_EAGAIN ∧
    (testModel et).ret ≠ -FI_EAGAIN ∧
    (es.allocOutcome = none →
      (check_post_bounce_req es.bounceRepostRc es.bouncePost es.bounceAllocOk
        es.bounceRail).2.1 = 0 →
      insert_rdma_send_req_into_msgbuff true es.replaceOk es.insertRes =
        (0, false) →
      es.progressRc = -FI_EAGAIN →
      send_core es true =
        ⟨0, true, true, es.num_inflight_reqs + 1, true, true⟩) ∧
    (er.allocOk = true →
      insert_rdma_recv_req_into_msgbuff false er.replaceOk er.insertRes =
        (0, false) →
      er.ctrlRc = -FI_EAGAIN →
      recv_core er false =
        ⟨0, true, true, er.num_inflight_reqs + 1, true, true⟩) ∧
    ((process_cq_if_pending es.sendProg es.recvProg es.rails es.pending).1 =
        -EAGAIN →
      es.connected = true → es.num_inflight_reqs ≠ es.maxSendReqs →
      sendModel es = noReq 0 es.num_inflight_reqs) := by
  refine ⟨sendModel_ne_eagain es h1, recvModel_ne_eagain er,
    testModel_ne_eagain et h4, ?_, ?_, ?_⟩
  · intro ha hcb hins hrc
    simp [send_core, ha, hcb, hins, hrc]
  · intro hal hins hrc
    simp [recv_core, hal, hins, hrc, receive_progress_model]
  · intro hp hconn hcap
    dsimp only [sendModel]
    rw [if_neg hcap, if_pos hconn]
    dsimp only [send_after_conn]
    rw [if_pos hp]

/-- A send environment in which the peer's CTRL is already in the slot and
the write post backpressures with `-FI_EAGAIN`. -/
def sendEnvEagain : SendEnv Nat :=
  { baseSendEnv with
    retrieve := MsgbuffRetrieveRes.success MsgbuffElemType.buff
    progressRc := -FI_EAGAIN }

/-- A receive environment whose control-message post backpressures. -/
def recvEnvEagain : RecvEnv Nat :=
  { baseRecvEnv with ctrlRc := -FI_EAGAIN }

/-- Witness for C5 at concrete environments (idle fabric on the CQs, one
`EAGAIN`-ed write post on the send side and one `EAGAIN`-ed control post on
the receive side). -/
theorem eagain_never_reaches_caller_witness :
    (∀ evs ∈ sendEnvEagain.connCq, ∀ ev ∈ evs, CqEventOk ev) ∧
    (∀ evs ∈ testEnvCompleted.rails, ∀ ev ∈ evs, CqEventOk ev) ∧
    ((sendModel sendEnvEagain).ret ≠ -FI_EAGAIN ∧
     (recvModel recvEnvEagain).ret ≠ -FI_EAGAIN ∧
     (testModel testEnvCompleted).ret ≠ -FI_EAGAIN ∧
     (sendEnvEagain.allocOutcome = none →
       (check_post_bounce_req sendEnvEagain.bounceRepostRc
         sendEnvEagain.bouncePost sendEnvEagain.bounceAllocOk
         sendEnvEagain.bounceRail).2.1 = 0 →
       insert_rdma_send_req_into_msgbuff true sendEnvEagain.replaceOk
         sendEnvEagain.insertRes = (0, false) →
       sendEnvEagain.progressRc = -FI_EAGAIN →
       send_core sendEnvEagain true = ⟨0, true, true, 1, true, true⟩) ∧
     (recvEnvEagain.allocOk = true →
       insert_rdma_recv_req_into_msgbuff false recvEnvEagain.replaceOk
         recvEnvEagain.insertRes = (0, false) →
       recvEnvEagain.ctrlRc = -FI_EAGAIN →
       recv_core recvEnvEagain false = ⟨0, true, true, 1, true, true⟩) ∧
     ((process_cq_if_pending sendEnvEagain.sendProg sendEnvEagain.recvProg
         sendEnvEagain.rails sendEnvEagain.pending).1 = -EAGAIN →
       sendEnvEagain.connected = true →
       sendEnvEagain.num_inflight_reqs ≠ sendEnvEagain.maxSendReqs →
       sendModel sendEnvEagain = noReq 0 sendEnvEagain.num_inflight_reqs)) :=
  ⟨fun _ hx => absurd hx (List.not_mem_nil _),
   fun _ hx => absurd hx (List.not_mem_nil _),
   eagain_never_reaches_caller sendEnvEagain recvEnvEagain testEnvCompleted
     (fun _ hx => absurd hx (List.not_mem_nil _))
     (fun _ hx => absurd hx (List.not_mem_nil _))⟩

/-! ## C2: `connect` (lines 5103-5252) and `accept` (lines 3680-3887)

The handshake stage of the communicator (`nccl_ofi_comm_stage_t`), the
switch-with-fallthrough control flow of both functions, and whether a
non-null communicator is handed back.  All collaborator outcomes (comm
creation, request preparation, fabric posts, CQ drains, the observed state
of the connect/connect-response request) are supplied by environments.

Note that on the `connect` side the stage stored in the handle is never set
to `COMM_CONNECTED`: after the `COMM_RECV_CONN` block posts its CQ drain,
the stage becomes `COMM_CONN_RESP_REQ_PENDING`, the switch `break`s, and
`*send_comm = &s_comm->base` is returned non-null (lines 5238-5251); the
connection itself is finalized later by `finish_connect` when the
CONN_RESP message arrives during `send`.  `accept` returns its receive
communicator only from the `COMM_CONN_RESP_REQ_PENDING` block, which sets
the stage to `COMM_CONNECTED` first (lines 3862-3871). -/

inductive CommStage where
  | createStart
  | sendConn
  | recvConn
  | connReqPending
  | connRespReqPending
  | connected
deriving DecidableEq, Repr

structure ConnResult where
  stage : CommStage
  commOut : Bool
  ret : Int
deriving DecidableEq, Repr

structure ConnectEnv where
  /-- `create_send_comm` result. -/
  createRet : Int
  /-- `prepare_send_conn_req` returned a request. -/
  prepReqOk : Bool
  /-- `prepare_recv_conn_resp_req` returned a request. -/
  prepRespOk : Bool
  /-- `post_send_conn` result. -/
  postConnRc : Int
  /-- `ofi_process_cq` result in `COMM_CONN_REQ_PENDING`. -/
  cq1Ret : Int
  /-- connect-message request observed `COMPLETED` after that drain. -/
  connMsgSent : Bool
  /-- `ofi_process_cq` result in `COMM_RECV_CONN`. -/
  cq2Ret : Int

/-- `COMM_RECV_CONN` block of `connect` (lines 5225-5240) and the
post-switch return: drain the CQ, advance to
`COMM_CONN_RESP_REQ_PENDING`, and hand back the send communicator. -/
def connect_stage_recv_conn (e : ConnectEnv) : ConnResult :=
  if e.cq2Ret ≠ 0 then
    ⟨CommStage.recvConn, false, e.cq2Ret⟩
  else
    ⟨CommStage.connRespReqPending, true, 0⟩

/-- `COMM_CONN_REQ_PENDING` block (lines 5186-5223): wait for the connect
message send completion and fall through. -/
def connect_stage_conn_req_pending (e : ConnectEnv) : ConnResult :=
  if e.cq1Ret ≠ 0 then
    ⟨CommStage.connReqPending, false, e.cq1Ret⟩
  else if e.connMsgSent = false then
    ⟨CommStage.connReqPending, false, 0⟩
  else
    connect_stage_recv_conn e

/-- `COMM_SEND_CONN` block (lines 5164-5184): prepare the CONN_RESP receive
request, post the CONN message (`-FI_EAGAIN` returns null with success), and
fall through. -/
def connect_stage_send_conn (e : ConnectEnv) : ConnResult :=
  if e.prepRespOk = false then
    ⟨CommStage.sendConn, false, -EINVAL⟩
  else if e.postConnRc = -FI_EAGAIN then
    ⟨CommStage.sendConn, false, 0⟩
  else if e.postConnRc ≠ 0 then
    ⟨CommStage.sendConn, false, e.postConnRc⟩
  else
    connect_stage_conn_req_pending e

/-- `COMM_CREATE_START` block (lines 5139-5162) and fall through. -/
def connect_stage_create_start (e : ConnectEnv) : ConnResult :=
  if e.createRet ≠ 0 then
    ⟨CommStage.createStart, false, e.createRet⟩
  else if e.prepReqOk = false then
    ⟨CommStage.createStart, false, -ENOMEM⟩
  else
    connect_stage_send_conn e

/-- `connect` (lines 5103-5252): the early `COMM_CONNECTED` rejection, the
stage switch with fallthrough, and the default case. -/
def connectModel (stage : CommStage) (e : ConnectEnv) : ConnResult :=
  match stage with
  | CommStage.createStart => connect_stage_create_start e
  | CommStage.sendConn => connect_stage_send_conn e
  | CommStage.connReqPending => connect_stage_conn_req_pending e
  | CommStage.recvConn => connect_stage_recv_conn e
  | CommStage.connRespReqPending =>
    ⟨CommStage.connRespReqPending, false, -EINVAL⟩
  | CommStage.connected => ⟨CommStage.connected, false, -EINVAL⟩

structure AcceptEnv where
  /-- `ofi_process_cq` result in `COMM_CONN_REQ_PENDING`. -/
  cqARet : Int
  /-- the CONN receive request observed `COMPLETED`. -/
  connReceived : Bool
  /-- the peer's rail count matches (`conn_msg->num_rails == ep->num_rails`). -/
  railsMatch : Bool
  /-- `prepare_recv_comm` returned a communicator. -/
  prepRecvCommOk : Bool
  /-- `prepare_conn_resp` result. -/
  prepConnRespRet : Int
  /-- `post_send_conn_resp` result. -/
  postRespRc : Int
  /-- `ofi_process_cq` result in `COMM_CONN_RESP_REQ_PENDING`. -/
  cqBRet : Int
  /-- the CONN_RESP send request observed `COMPLETED`. -/
  respSent : Bool

/-- `COMM_CONN_RESP_REQ_PENDING` block of `accept` (lines 3820-3871): wait
for the CONN_RESP send completion, then set `COMM_CONNECTED` and hand back
the receive communicator. -/
def accept_stage_conn_resp_pending (e : AcceptEnv) : ConnResult :=
  if e.cqBRet ≠ 0 then
    ⟨CommStage.connRespReqPending, false, e.cqBRet⟩
  else if e.respSent = false then
    ⟨CommStage.connRespReqPending, false, 0⟩
  else
    ⟨CommStage.connected, true, 0⟩

/-- `COMM_SEND_CONN` block of `accept` (lines 3795-3818). -/
def accept_stage_send_conn (e : AcceptEnv) : ConnResult :=
  if e.prepConnRespRet ≠ 0 then
    ⟨CommStage.sendConn, false, e.prepConnRespRet⟩
  else if e.postRespRc = -FI_EAGAIN then
    ⟨CommStage.sendConn, false, 0⟩
  else if e.postRespRc ≠ 0 then
    ⟨CommStage.sendConn, false, e.postRespRc⟩
  else
    accept_stage_conn_resp_pending e

/-- `COMM_CREATE_START`/`COMM_RECV_CONN`/`COMM_CONN_REQ_PENDING` blocks of
`accept` (lines 3734-3793): the first two only advance the stage, then wait
for the CONN message, validate it, and build the receive communicator. -/
def accept_stage_conn_req_pending (e : AcceptEnv) : ConnResult :=
  if e.cqARet ≠ 0 then
    ⟨CommStage.connReqPending, false, e.cqARet⟩
  else if e.connReceived = false then
    ⟨CommStage.connReqPending, false, 0⟩
  else if e.railsMatch = false then
    ⟨CommStage.connReqPending, false, -EINVAL⟩
  else if e.prepRecvCommOk = false then
    ⟨CommStage.connReqPending, false, -EINVAL⟩
  else
    accept_stage_send_conn e

/-- `accept` (lines 3680-3887). -/
def acceptModel (stage : CommStage) (e : AcceptEnv) : ConnResult :=
  match stage with
  | CommStage.createStart => accept_stage_conn_req_pending e
  | CommStage.recvConn => accept_stage_conn_req_pending e
  | CommStage.connReqPending => accept_stage_conn_req_pending e
  | CommStage.sendConn => accept_stage_send_conn e
  | CommStage.connRespReqPending => accept_stage_conn_resp_pending e
  | CommStage.connected => ⟨CommStage.connected, false, -EINVAL⟩

/-- A fully cooperative connect environment: every collaborator succeeds
and both handshake messages complete immediately. -/
def goodConnectEnv : ConnectEnv :=
  { createRet := 0
    prepReqOk := true
    prepRespOk := true
    postConnRc := 0
    cq1Ret := 0
    connMsgSent := true
    cq2Ret := 0 }

/-- C2 counterexample: with every collaborator cooperating, `connect`
returns a non-null send communicator while its stage is
`COMM_CONN_RESP_REQ_PENDING` — a non-terminal stage (`COMM_CONNECTED` is
never reached by `connect` itself), refuting "connect never returns a
non-null send communicator while its handshake is still at a non-terminal
stage". -/
theorem connect_nonnull_at_nonterminal_stage :
    (connectModel CommStage.createStart goodConnectEnv).commOut = true ∧
    (connectModel CommStage.createStart goodConnectEnv).stage =
      CommStage.connRespReqPending ∧
    (connectModel CommStage.createStart goodConnectEnv).stage ≠
      CommStage.connected := by
  refine ⟨by decide, by decide, by decide⟩

set_option maxHeartbeats 1600000 in
/-- C2 (amended): `connect` returns a non-null send communicator exactly
when it returns `0` having advanced the handle's stage to
`COMM_CONN_RESP_REQ_PENDING` (a non-terminal stage; the handshake is
finalized later by `finish_connect` when the CONN_RESP arrives), and
`accept` returns a non-null receive communicator exactly when it returns
`0` having reached the terminal `COMM_CONNECTED` stage; every other
outcome hands back a null communicator (retry on `ret = 0`). -/
theorem connect_accept_nonnull_iff (stage stage' : CommStage)
    (e : ConnectEnv) (ea : AcceptEnv) :
    ((connectModel stage e).commOut = true ↔
      ((connectModel stage e).stage = CommStage.connRespReqPending ∧
       (connectModel stage e).ret = 0)) ∧
    ((acceptModel stage' ea).commOut = true ↔
      ((acceptModel stage' ea).stage = CommStage.connected ∧
       (acceptModel stage' ea).ret = 0)) := by
  constructor
  · cases stage
    case createStart =>
      dsimp only [connectModel, connect_stage_create_start,
        connect_stage_send_conn, connect_stage_conn_req_pending,
        connect_stage_recv_conn]
      split_ifs <;> simp [EINVAL, ENOMEM]
    case sendConn =>
      dsimp only [connectModel, connect_stage_send_conn,
        connect_stage_conn_req_pending, connect_stage_recv_conn]
      split_ifs <;> simp [EINVAL]
    case connReqPending =>
      dsimp only [connectModel, connect_stage_conn_req_pending,
        connect_stage_recv_conn]
      split_ifs <;> simp
    case recvConn =>
      dsimp only [connectModel, connect_stage_recv_conn]
      split_ifs <;> simp
    case connRespReqPending => simp [connectModel, EINVAL]
    case connected => simp [connectModel]
  · cases stage'
    case createStart =>
      dsimp only [acceptModel, accept_stage_conn_req_pending,
        accept_stage_send_conn, accept_stage_conn_resp_pending]
      split_ifs <;> simp [EINVAL]
    case recvConn =>
      dsimp only [acceptModel, accept_stage_conn_req_pending,
        accept_stage_send_conn, accept_stage_conn_resp_pending]
      split_ifs <;> simp [EINVAL]
    case connReqPending =>
      dsimp only [acceptModel, accept_stage_conn_req_pending,
        accept_stage_send_conn, accept_stage_conn_resp_pending]
      split_ifs <;> simp [EINVAL]
    case sendConn =>
      dsimp only [acceptModel, accept_stage_send_conn,
        accept_stage_conn_resp_pending]
      split_ifs <;> simp [EINVAL]
    case connRespReqPending =>
      dsimp only [acceptModel, accept_stage_conn_resp_pending]
      split_ifs <;> simp
    case connected => simp [acceptModel, EINVAL]

/-! ## C9: `handle_ctrl_recv` (lines 952-1029) with an undersized remote
buffer

When the CTRL message finds an already-posted non-eager SEND request and
announces a remote buffer smaller than the send buffer, the request is
moved to `ERROR` without posting any RDMA write, and the handler returns
`0` ("Success, as in this function succeeded.  The error will go back up
to NCCL via function test()"). -/

structure CtrlRecvEnv where
  /-- `nccl_ofi_msgbuff_insert` outcome for the arriving CTRL. -/
  insertRes : MsgbuffInsertRes
  /-- the follow-up retrieve returned `SUCCESS` with a `REQ` element. -/
  retrieveOk : Bool
  /-- the found SEND request (its `state`/`size`/`ncompls`). -/
  req : Req
  /-- `send_data->eager` of the found request. -/
  eager : Bool
  /-- `send_data->buff_len` (local send buffer length). -/
  buff_len : Nat
  /-- `ctrl_msg->buff_len` (remote receive buffer length). -/
  remote_len : Nat
  /-- `send_data->total_num_compls`. -/
  totalCompls : Nat
  /-- `send_progress` outcome for the RDMA write. -/
  progressRc : Int
  /-- `decrease_bounce_buff_cnt` result (insert-success path). -/
  decreaseRet : Int
  /-- `repost_bounce_buff` result. -/
  repostRet : Int

structure CtrlRecvResult where
  ret : Int
  /-- the SEND request after the handler ran. -/
  reqAfter : Req
  /-- `send_progress` was invoked (an RDMA write was initiated). -/
  writeInitiated : Bool
  /-- the request was parked on the pending queue. -/
  enqueued : Bool
deriving DecidableEq, Repr

/-- `handle_ctrl_recv` (lines 952-1029). -/
def handle_ctrl_recv (e : CtrlRecvEnv) : CtrlRecvResult :=
  match e.insertRes with
  | MsgbuffInsertRes.success =>
    -- sender has not posted yet: count down the bounce buffer and return.
    ⟨e.decreaseRet, e.req, false, false⟩
  | MsgbuffInsertRes.invalidIdx MsgbuffStatus.inProgress =>
    if e.retrieveOk = false then
      ⟨-EINVAL, e.req, false, false⟩
    else if e.eager = false then
      -- copy_ctrl_data, then the length check guarding the RDMA write.
      if e.buff_len > e.remote_len then
        ⟨0, set_request_state_to_error e.req, false, false⟩
      else if e.progressRc = -FI_EAGAIN then
        ⟨e.repostRet, inc_req_completion e.req 0 e.totalCompls, true, true⟩
      else if e.progressRc ≠ 0 then
        ⟨e.progressRc, e.req, true, false⟩
      else
        ⟨e.repostRet, inc_req_completion e.req 0 e.totalCompls, true, false⟩
    else
      ⟨e.repostRet, inc_req_completion e.req 0 e.totalCompls, false, false⟩
  | _ => ⟨-EINVAL, e.req, false, false⟩

/-- C9: a CTRL arriving for an already-posted non-eager SEND request that
announces `buff_len > remote_len` moves the request to `ERROR` without
initiating any RDMA write, and the handler itself returns `0`. -/
theorem ctrl_recv_oversize_errors_request (e : CtrlRecvEnv)
    (h1 : e.insertRes = MsgbuffInsertRes.invalidIdx MsgbuffStatus.inProgress)
    (h2 : e.retrieveOk = true)
    (h3 : e.eager = false)
    (h4 : e.buff_len > e.remote_len) :
    handle_ctrl_recv e = ⟨0, set_request_state_to_error e.req, false, false⟩ ∧
    (handle_ctrl_recv e).reqAfter.state = ReqState.error ∧
    (handle_ctrl_recv e).writeInitiated = false ∧
    (handle_ctrl_recv e).ret = 0 := by
  have heq : handle_ctrl_recv e =
      ⟨0, set_request_state_to_error e.req, false, false⟩ := by
    simp [handle_ctrl_recv, h1, h2, h3, h4]
  refine ⟨heq, ?_, ?_, ?_⟩
  · rw [heq]
    simp [set_request_state_to_error]
  · rw [heq]
  · rw [heq]

/-- Witness for C9: a pending SEND request of 4096 bytes meeting a CTRL
announcing a 1024-byte remote buffer. -/
theorem ctrl_recv_oversize_errors_request_witness :
    ({ insertRes := MsgbuffInsertRes.invalidIdx MsgbuffStatus.inProgress
       retrieveOk := true
       req := Req.mk ReqState.pending 0 0
       eager := false
       buff_len := 4096
       remote_len := 1024
       totalCompls := 3
       progressRc := 0
       decreaseRet := 0
       repostRet := 0 } : CtrlRecvEnv).buff_len > 1024 ∧
    (handle_ctrl_recv
      { insertRes := MsgbuffInsertRes.invalidIdx MsgbuffStatus.inProgress
        retrieveOk := true
        req := Req.mk ReqState.pending 0 0
        eager := false
        buff_len := 4096
        remote_len := 1024
        totalCompls := 3
        progressRc := 0
        decreaseRet := 0
        repostRet := 0 } =
      ⟨0, set_request_state_to_error (Req.mk ReqState.pending 0 0),
        false, false⟩) := by
  constructor
  · decide
  · exact (ctrl_recv_oversize_errors_request _ rfl rfl rfl (by decide)).1

end NcclOfiRdma
